import Mathlib

/-!
Shallow embedding of the job-lifecycle / reconciliation engine of the
frontendCrawler repository (src/frontend/src/services/job-service.ts, the
transport adapter services/api.ts, and the crawl-job form's submit handler).

Strings are modelled as `List Char` (`Str`), so that the JavaScript string
operations used by the code (`split('/')`, concatenation, template literals,
`trim()`, truthiness of strings) become executable Lean functions with
provable structural properties.  JavaScript `Date` values are modelled as
abstract `Nat` timestamps passed in explicitly wherever the source calls
`new Date()`.
-/

namespace FrontendCrawler

/-- JavaScript strings, modelled as lists of characters. -/
abbrev Str := List Char

/-- Coerce a Lean string literal into the `Str` model. -/
def str (s : String) : Str := s.data

/-- Decimal rendering of a number, as done by a JS template literal `${n}`. -/
def natStr (n : Nat) : Str := (Nat.repr n).data

/-- JavaScript truthiness of a possibly-null string: `null`/`undefined` and
the empty string are falsy, every other string is truthy. -/
def truthy : Option Str → Bool
  | none => false
  | some s => s ≠ []

/-- JavaScript `a || b` on possibly-null strings: `a` when truthy, else `b`. -/
def jsOrStr (a b : Option Str) : Option Str :=
  if truthy a then a else b

/-- JavaScript `s.split('/')` (splitting on a single-character separator):
always returns a non-empty list of separator-free segments. -/
def splitOnSlash : Str → List Str
  | [] => [[]]
  | c :: cs =>
    if c = '/' then [] :: splitOnSlash cs
    else
      match splitOnSlash cs with
      | [] => [[c]]
      | h :: t => (c :: h) :: t

/-- JavaScript `s.trim()`: strip whitespace from both ends. -/
def jsTrim (s : Str) : Str :=
  ((s.dropWhile Char.isWhitespace).reverse.dropWhile Char.isWhitespace).reverse

/-- `status` field of a job (job-service.ts, `JobStatus`). -/
inductive JobStatus where
  | queued | running | paused | completed | failed | canceled
deriving DecidableEq, Repr

/-- The terminal statuses of the job state machine. -/
def JobStatus.isTerminal : JobStatus → Bool
  | .completed => true
  | .failed => true
  | .canceled => true
  | _ => false

/-- Crawl configuration (job-service.ts, `CrawlConfig`).  `headers` is an
association list standing for the `Record<string, string>` object. -/
structure CrawlConfig where
  name : Str
  startUrls : List Str
  maxPages : Nat
  maxDepth : Nat
  sameDomainOnly : Bool
  includeSubdomains : Bool
  includePatterns : List Str
  excludePatterns : List Str
  useSitemap : Bool
  prioritizeSitemap : Bool
  renderJs : Bool
  timeout : Nat
  retries : Nat
  concurrency : Nat
  requestsPerMinute : Nat
  userAgent : Str
  headers : List (Str × Str)
  stripQueryParams : Bool
  canonicalOnly : Bool
  respectRobots : Bool
  overrideRobots : Bool
  extractTitle : Bool
  extractMetaDescription : Bool
  extractHeadings : Bool
  extractMainContent : Bool
  extractLinks : Bool
  extractImages : Bool
  saveRawHtml : Bool
deriving DecidableEq, Repr

/-- The `counts` sub-record of a job. -/
structure JobCounts where
  crawled : Nat
  queued : Nat
  failed : Nat
deriving DecidableEq, Repr

/-- A locally stored job (job-service.ts, `CrawlJob`).  Optional `Date`
fields become `Option Nat` timestamps. -/
structure CrawlJob where
  id : Str
  name : Str
  config : CrawlConfig
  status : JobStatus
  createdAt : Nat
  startedAt : Option Nat := none
  finishedAt : Option Nat := none
  updatedAt : Option Nat := none
  counts : JobCounts
  jobDir : Option Str := none
  startUrl : Option Str := none
deriving DecidableEq, Repr

/-- A cached log entry (job-service.ts, `JobLog`).  `level` is kept as a raw
string because backend-supplied levels are cast unchecked; `meta` is an
opaque optional payload. -/
structure JobLog where
  id : Str
  jobId : Str
  level : Str
  message : Str
  timestamp : Nat
  meta : Option Str := none
deriving DecidableEq, Repr

/-- The module-level in-memory store (`let jobs`, `let logs`). -/
structure Store where
  jobs : List CrawlJob
  logs : List JobLog
deriving DecidableEq, Repr

/-- `extractJobFolder` (job-service.ts): `null` and the empty string are
falsy and give `null`; otherwise `parts[1] || parts[0] || null` over
`jobDir.split('/')`. -/
def extractJobFolder (jobDir : Option Str) : Option Str :=
  match jobDir with
  | none => none
  | some s =>
    if s = [] then none
    else
      let parts := splitOnSlash s
      jsOrStr (parts.get? 1) (jsOrStr (parts.get? 0) none)

/-- `buildDownloadUrl` (job-service.ts), with the configured base endpoint
`API_URL` passed explicitly. -/
def buildDownloadUrl (apiUrl : Str) (jobDir : Option Str) (fileName : Str) :
    Option Str :=
  match extractJobFolder jobDir with
  | none => none
  | some folder => some (apiUrl ++ str "/download/" ++ folder ++ str "/" ++ fileName)

/-- The `status` sub-object of `BackendJobInfo` (job-service.ts). -/
structure BackendStatus where
  running : Bool
  done : Bool
  error : Option Str
deriving DecidableEq, Repr

/-- `BackendJobInfo` as consumed by the reconciliation code.  The optional
chaining `info.counts?.crawled`, `info.status?.done` in the source means the
sub-objects may be absent, hence the `Option`s. -/
structure BackendJobInfo where
  counts : Option Nat
  status : Option BackendStatus
  jobDir : Option Str
  startUrl : Option Str
deriving DecidableEq, Repr

/-- Truthiness of `info.status?.done` as tested by `if (info.status?.done)`. -/
def BackendJobInfo.doneFlag (info : BackendJobInfo) : Bool :=
  match info.status with
  | none => false
  | some st => st.done

/-- Truthiness of `info.status?.error`: a non-null, non-empty error string. -/
def BackendJobInfo.errorFlag (info : BackendJobInfo) : Bool :=
  match info.status with
  | none => false
  | some st => truthy st.error

/-- The merge step of `syncJobFromBackend` (job-service.ts): given a fetched
backend snapshot, the timestamp `now` produced by the `new Date()` calls
during this invocation, and the local job record, produce the updated local
record.  Applied only when both the fetch succeeded and the job was found,
exactly as in the source. -/
def syncMerge (info : BackendJobInfo) (now : Nat) (j : CrawlJob) : CrawlJob :=
  let j := { j with
    counts := { j.counts with crawled := info.counts.getD j.counts.crawled },
    updatedAt := some now }
  let j := if info.doneFlag then
    { j with status := .completed, finishedAt := some now } else j
  let j := if info.errorFlag then
    { j with status := .failed, finishedAt := some now } else j
  let j := match info.jobDir with
    | some d => if d ≠ [] then { j with jobDir := some (str "output_crawler/" ++ d) } else j
    | none => j
  match info.startUrl with
  | some u => if u ≠ [] then { j with startUrl := some u } else j
  | none => j

/-- Job control actions (job-service.ts, `performJobAction`). -/
inductive JobAction where
  | start | pause | resume | cancel
deriving DecidableEq, Repr

/-- Replace the first element satisfying `p` by `f` of it, as the JS
`jobs.find(...)` followed by in-place mutation of the found object does. -/
def updateFirst (p : CrawlJob → Bool) (f : CrawlJob → CrawlJob) :
    List CrawlJob → List CrawlJob
  | [] => []
  | j :: js => if p j then f j :: js else j :: updateFirst p f js

/-- The synchronous state change of `performJobAction` (job-service.ts).
`useMock` is the module constant `USE_MOCK` (false in the shipped code);
`now` models `new Date()` and `logId` the `generateId()` result of this
invocation.  In the real branch the function only emits a console warning
and leaves the store untouched.  The mock `start`/`resume` branches also
schedule `simulateCrawling`, a timer whose later ticks are outside this
synchronous step. -/
def performJobAction (useMock : Bool) (now : Nat) (logId : Str) (st : Store)
    (jobId : Str) (action : JobAction) : Except Str Store :=
  if useMock then
    match st.jobs.find? (fun j => j.id = jobId) with
    | none => .error (str "Job not found")
    | some job =>
      if action = .start ∧ job.status = .queued then
        .ok { jobs := updateFirst (fun j => j.id = jobId)
                (fun j => { j with status := .running, startedAt := some now,
                                   updatedAt := some now }) st.jobs,
              logs := st.logs ++ [⟨logId, jobId, str "info", str "Crawl job started", now, none⟩] }
      else if action = .pause ∧ job.status = .running then
        .ok { jobs := updateFirst (fun j => j.id = jobId)
                (fun j => { j with status := .paused, updatedAt := some now }) st.jobs,
              logs := st.logs ++ [⟨logId, jobId, str "warn", str "Crawl job paused", now, none⟩] }
      else if action = .resume ∧ job.status = .paused then
        .ok { jobs := updateFirst (fun j => j.id = jobId)
                (fun j => { j with status := .running, updatedAt := some now }) st.jobs,
              logs := st.logs ++ [⟨logId, jobId, str "info", str "Crawl job resumed", now, none⟩] }
      else if action = .cancel ∧ (job.status = .queued ∨ job.status = .running ∨
          job.status = .paused) then
        .ok { jobs := updateFirst (fun j => j.id = jobId)
                (fun j => { j with status := .canceled, finishedAt := some now,
                                   updatedAt := some now }) st.jobs,
              logs := st.logs ++ [⟨logId, jobId, str "error", str "Crawl job canceled", now, none⟩] }
      else
        .ok st
  else
    .ok st

/-- Outcome of one `fetch` of the create-job POST: either the promise
rejects (network error / timeout) or a response arrives.  `bodyText` is what
`res.text()` would yield and `jobId` is the `job_id` field of the parsed
JSON body (`none` when absent). -/
inductive CreateFetchResult where
  | netErr (msg : Str)
  | resp (ok : Bool) (status : Nat) (statusText : Str) (bodyText : Str)
      (jobId : Option Str)
deriving DecidableEq, Repr

/-- `createJob` (job-service.ts), real branch (`USE_MOCK = false`): POST the
config to `/crawl_async/`; on a non-2xx response or a body without a truthy
`job_id`, throw; otherwise unshift the new running job onto the store.  The
result pairs the thrown-or-returned value with the store left behind by the
call, so that the absence of partial state is expressible. -/
def createJob (now : Nat) (config : CrawlConfig) (r : CreateFetchResult)
    (st : Store) : Except Str CrawlJob × Store :=
  match r with
  | .netErr msg => (.error msg, st)
  | .resp ok status statusText bodyText jobId =>
    if ¬ ok then
      (.error (str "Backend error (" ++ natStr status ++ str "): " ++
        (if bodyText ≠ [] then bodyText else statusText)), st)
    else if ¬ truthy jobId then
      (.error (str "No job_id from backend"), st)
    else
      let job : CrawlJob :=
        { id := jobId.getD []
          name := if config.name ≠ [] then config.name else str "job"
          config := config
          status := .running
          createdAt := now
          startedAt := some now
          counts := ⟨0, 0, 0⟩ }
      (.ok job, { st with jobs := job :: st.jobs })

/-- Outcome of the crawl-job form's submit handler before any network call
(crawl-job-form component, `handleSubmit`): either a validation rejection
(an alert plus early return) or a decision to submit the config. -/
inductive SubmitOutcome where
  | validationError (msg : Str)
  | submit (config : CrawlConfig)
deriving DecidableEq, Repr

/-- The validation guard of `handleSubmit`: a blank name or an empty /
blank-first start-URL list is rejected before anything is sent or stored. -/
def handleSubmitGuard (config : CrawlConfig) : SubmitOutcome :=
  if jsTrim config.name = [] then
    .validationError (str "Please provide a job name")
  else if config.startUrls = [] ∨ jsTrim (config.startUrls.headD []) = [] then
    .validationError (str "Please provide at least one start URL")
  else
    .submit config

/-- The create pathway as wired in the app: the form validates, and only a
config that passes the guard reaches `JobService.createJob`.  Returns the
store after the whole interaction. -/
def submitPipeline (now : Nat) (config : CrawlConfig) (r : CreateFetchResult)
    (st : Store) : Store :=
  match handleSubmitGuard config with
  | .validationError _ => st
  | .submit cfg => (createJob now cfg r st).2

/-- One entry of the backend's `GET /jobs/{id}/logs` payload.  `level` is
optional because the source applies `(l.level as any) ?? 'info'`. -/
structure BackendLogEntry where
  ts : Nat
  level : Option Str
  message : Str
deriving DecidableEq, Repr

/-- The `data.logs.map((l, idx) => ...)` step of `getJobLogs`: synthetic id
`` `${jobId}-${idx}-${l.ts}` ``, level defaulted to `info`, timestamp
`new Date(l.ts * 1000)`. -/
def mapBackendLogs (jobId : Str) (fetched : List BackendLogEntry) : List JobLog :=
  fetched.enum.map fun p =>
    { id := jobId ++ str "-" ++ natStr p.1 ++ str "-" ++ natStr p.2.ts
      jobId := jobId
      level := p.2.level.getD (str "info")
      message := p.2.message
      timestamp := p.2.ts * 1000 }

/-- The ascending sort `(a, b) => a.timestamp.getTime() - b.timestamp.getTime()`
applied to the returned list. -/
def sortLogsAsc (l : List JobLog) : List JobLog :=
  l.mergeSort (fun a b => a.timestamp ≤ b.timestamp)

/-- `getJobLogs` (job-service.ts), success path: map the fetched entries,
replace the job's slice of the module-level `logs` cache wholesale
(`logs.filter(x => x.jobId !== jobId).concat(mapped)`), and return the
mapped entries sorted by timestamp.  Result: (returned list, new cache). -/
def getJobLogs (jobId : Str) (fetched : List BackendLogEntry)
    (logs : List JobLog) : List JobLog × List JobLog :=
  let mapped := mapBackendLogs jobId fetched
  (sortLogsAsc mapped, logs.filter (fun x => x.jobId ≠ jobId) ++ mapped)

/-- The `formatToFilename` record of `exportJob` (job-service.ts). -/
def formatToFilename (f : Str) : Option Str :=
  if f = str "json" then some (str "all_results.json")
  else if f = str "csv" then some (str "all_results.csv")
  else if f = str "markdown-book" then some (str "all_results.md")
  else none

/-- `exportJob` (job-service.ts), real branch: look the job up, keep only
the requested formats with a known filename, build a download link per
surviving format, drop null links, and throw when none remain. -/
def exportJob (apiUrl : Str) (st : Store) (jobId : Str) (formats : List Str) :
    Except Str (List (Str × Str)) :=
  match st.jobs.find? (fun j => j.id = jobId) with
  | none => .error (str "Job not found")
  | some job =>
    let requested := formats.filter (fun f => (formatToFilename f).isSome)
    let links := requested.filterMap fun f =>
      match formatToFilename f with
      | some fn => (buildDownloadUrl apiUrl job.jobDir fn).map (fun url => (f, url))
      | none => none
    if links = [] then .error (str "No download links available for requested formats.")
    else .ok links

/-- Outcome of one attempt of the transport adapter's `fetch` (services/api.ts):
the promise rejects (network error, or the `withTimeout` rejection), or a
response arrives with its `ok` flag, status, statusText and body text. -/
inductive AttemptOutcome where
  | netErr (msg : Str)
  | resp (ok : Bool) (status : Nat) (statusText : Str) (body : Str)
deriving DecidableEq, Repr

/-- One attempt of `postJSON`: a rejected fetch propagates its error; a
non-2xx response throws `` `HTTP ${status} ${statusText} – ${text || '(empty)'}` ``;
a 2xx response yields the parsed body (`undefined` when the body is empty
or `JSON.parse` fails, modelled by the `parse` parameter returning `none`). -/
def attemptOnce {α : Type} (parse : Str → Option α) :
    AttemptOutcome → Except Str (Option α)
  | .netErr m => .error m
  | .resp ok status statusText body =>
    if ok then .ok (if body = [] then none else parse body)
    else .error (str "HTTP " ++ natStr status ++ str " " ++ statusText ++
      str " – " ++ (if body ≠ [] then body else str "(empty)"))

/-- `postJSON` (services/api.ts): the retry loop `for attempt = 1..2`; after
every failed attempt the code sleeps 1500 ms, and after the second failure it
rethrows the last observed error.  `env n` is the outcome the network would
produce for the n-th attempt.  Result: (value or thrown error, number of
attempts made, list of sleeps performed in ms). -/
def postJSON {α : Type} (parse : Str → Option α) (env : Nat → AttemptOutcome) :
    Except Str (Option α) × Nat × List Nat :=
  match attemptOnce parse (env 1) with
  | .ok v => (.ok v, 1, [])
  | .error _ =>
    match attemptOnce parse (env 2) with
    | .ok v => (.ok v, 2, [1500])
    | .error e2 => (.error e2, 2, [1500, 1500])

/-! ## Concrete fixtures used to evaluate the model on closed inputs -/

/-- A concrete well-formed crawl configuration (the form's defaults). -/
def sampleConfig : CrawlConfig where
  name := str "Test crawl"
  startUrls := [str "https://example.com"]
  maxPages := 100
  maxDepth := 3
  sameDomainOnly := true
  includeSubdomains := false
  includePatterns := [str "**/*"]
  excludePatterns := []
  useSitemap := true
  prioritizeSitemap := false
  renderJs := false
  timeout := 10000
  retries := 3
  concurrency := 2
  requestsPerMinute := 60
  userAgent := str "WebCrawler/1.0"
  headers := []
  stripQueryParams := true
  canonicalOnly := false
  respectRobots := true
  overrideRobots := false
  extractTitle := true
  extractMetaDescription := true
  extractHeadings := true
  extractMainContent := true
  extractLinks := true
  extractImages := true
  saveRawHtml := false

/-- The sample configuration with an empty start-URL list. -/
def emptyUrlsConfig : CrawlConfig := { sampleConfig with startUrls := [] }

/-- The sample configuration whose only start URL is blank. -/
def blankUrlConfig : CrawlConfig := { sampleConfig with startUrls := [str "   "] }

/-- A concrete job stored locally, not yet finished. -/
def sampleRunningJob : CrawlJob where
  id := str "j1"
  name := str "Test crawl"
  config := sampleConfig
  status := .running
  createdAt := 10
  startedAt := some 10
  counts := ⟨3, 2, 0⟩

/-- A concrete job in the terminal `completed` state. -/
def sampleCompletedJob : CrawlJob where
  id := str "j1"
  name := str "Test crawl"
  config := sampleConfig
  status := .completed
  createdAt := 10
  startedAt := some 10
  finishedAt := some 50
  updatedAt := some 50
  counts := ⟨5, 0, 0⟩
  jobDir := some (str "output/job-20250101-000000")

/-- A concrete backend snapshot reporting completion. -/
def sampleDoneInfo : BackendJobInfo where
  counts := some 7
  status := some ⟨false, true, none⟩
  jobDir := some (str "job-20250101-000000")
  startUrl := some (str "https://example.com")

/-- A concrete fetched backend log payload. -/
def sampleFetchedLogs : List BackendLogEntry :=
  [⟨100, some (str "info"), str "hello"⟩, ⟨200, none, str "bye"⟩]

/-- A cached log entry belonging to a different job. -/
def otherJobLog : JobLog := ⟨str "x1", str "j2", str "warn", str "other", 5, none⟩

/-- A stale cached log entry of the job being refreshed. -/
def staleOwnLog : JobLog := ⟨str "old", str "j1", str "info", str "stale", 1, none⟩

/-! ## Structural lemmas about the path-splitting helper -/

/-- `split` never returns an empty array. -/
theorem splitOnSlash_ne_nil (s : Str) : splitOnSlash s ≠ [] := by
  induction s with
  | nil => simp [splitOnSlash]
  | cons c cs ih =>
    by_cases hc : c = '/'
    · simp [splitOnSlash, hc]
    · simp only [splitOnSlash, if_neg hc]
      cases hcs : splitOnSlash cs <;> simp

/-- Segments produced by `split('/')` contain no separator. -/
theorem not_slash_of_mem_splitOnSlash (s : Str) (p : Str)
    (hp : p ∈ splitOnSlash s) : '/' ∉ p := by
  induction s generalizing p with
  | nil =>
    simp [splitOnSlash] at hp
    subst hp; simp
  | cons c cs ih =>
    by_cases hc : c = '/'
    · simp only [splitOnSlash, if_pos hc, List.mem_cons] at hp
      rcases hp with hp | hp
      · subst hp; simp
      · exact ih p hp
    · simp only [splitOnSlash, if_neg hc] at hp
      cases hcs : splitOnSlash cs with
      | nil => exact absurd hcs (splitOnSlash_ne_nil cs)
      | cons hd tl =>
        rw [hcs] at hp
        simp only [List.mem_cons] at hp
        rcases hp with hp | hp
        · subst hp
          intro hmem
          rcases List.mem_cons.mp hmem with h | h
          · exact hc h.symm
          · exact ih hd (by rw [hcs]; exact List.mem_cons_self _ _) h
        · exact ih p (by rw [hcs]; exact List.mem_cons_of_mem _ hp)

/-- Splitting a separator-free string yields the singleton array. -/
theorem splitOnSlash_of_not_mem (s : Str) (h : '/' ∉ s) : splitOnSlash s = [s] := by
  induction s with
  | nil => simp [splitOnSlash]
  | cons c cs ih =>
    have hc : ¬ c = '/' := fun e => h (e ▸ List.mem_cons_self c cs)
    have hcs : '/' ∉ cs := fun m => h (List.mem_cons_of_mem _ m)
    simp only [splitOnSlash, if_neg hc, ih hcs]

/-- Splitting a two-segment path `a ++ "/" ++ b` with separator-free halves. -/
theorem splitOnSlash_two (a b : Str) (ha : '/' ∉ a) (hb : '/' ∉ b) :
    splitOnSlash (a ++ '/' :: b) = [a, b] := by
  induction a with
  | nil => simp [splitOnSlash, splitOnSlash_of_not_mem b hb]
  | cons c cs ih =>
    have hc : ¬ c = '/' := fun e => ha (e ▸ List.mem_cons_self c cs)
    have hcs : '/' ∉ cs := fun m => ha (List.mem_cons_of_mem _ m)
    simp only [List.cons_append, splitOnSlash, if_neg hc, List.append_eq, ih hcs]

/-- Any folder produced by `extractJobFolder` is non-empty and slash-free. -/
theorem extractJobFolder_spec (jd : Option Str) (p : Str)
    (h : extractJobFolder jd = some p) : p ≠ [] ∧ '/' ∉ p := by
  cases jd with
  | none => simp [extractJobFolder] at h
  | some s =>
    simp only [extractJobFolder] at h
    by_cases hs : s = []
    · rw [if_pos hs] at h; cases h
    · rw [if_neg hs] at h
      unfold jsOrStr at h
      by_cases h1 : truthy ((splitOnSlash s).get? 1) = true
      · rw [if_pos h1] at h
        refine ⟨?_, not_slash_of_mem_splitOnSlash s p (List.get?_mem h)⟩
        rw [h] at h1
        simpa [truthy] using h1
      · rw [if_neg h1] at h
        by_cases h0 : truthy ((splitOnSlash s).get? 0) = true
        · rw [if_pos h0] at h
          refine ⟨?_, not_slash_of_mem_splitOnSlash s p (List.get?_mem h)⟩
          rw [h] at h0
          simpa [truthy] using h0
        · rw [if_neg h0] at h
          cases h

/-! ## C1 — idempotence of the reconciliation merge -/

/-- C1, counterexample: the merge of `syncJobFromBackend` is not idempotent
as claimed — each application of a `done` snapshot re-stamps `finishedAt`
with a fresh `new Date()`, so re-applying the same snapshot at a later
instant changes `finishedAt` again (from 0 to 1 here). -/
theorem C1_counterexample :
    (syncMerge sampleDoneInfo 0 sampleRunningJob).finishedAt = some 0 ∧
    (syncMerge sampleDoneInfo 1
      (syncMerge sampleDoneInfo 0 sampleRunningJob)).finishedAt = some 1 := by
  decide

set_option maxHeartbeats 2000000 in
/-- C1, amended: applying the same remote snapshot twice collapses to a
single application stamped at the second time — all fields agree with a
single merge except that `updatedAt`, and `finishedAt` when the snapshot
reports done/error, are re-stamped to the newer clock value; in particular
the merge is idempotent when the two applications observe the same clock
(`t1 = t2`). -/
theorem C1_syncMerge_absorb : ∀ (info : BackendJobInfo) (t1 t2 : Nat)
    (j : CrawlJob), syncMerge info t2 (syncMerge info t1 j) = syncMerge info t2 j := by
  rintro ⟨cnts, stat, jd, su⟩ t1 t2 j
  rcases stat with _ | ⟨r, dn, e⟩ <;> rcases jd with _ | d <;>
      rcases su with _ | u <;> rcases cnts with _ | c <;>
    simp only [syncMerge, BackendJobInfo.doneFlag, BackendJobInfo.errorFlag] <;>
    first
      | rfl
      | (split_ifs <;> rfl)

/-! ## C2 — the working-directory token normalization -/

/-- C2, counterexample: `extractJobFolder` does not extract the final path
segment — on the token `"a/b/c"` it yields the second segment `"b"`, while
the final segment is `"c"`. -/
theorem C2_counterexample :
    extractJobFolder (some (str "a/b/c")) = some (str "b") ∧
    (splitOnSlash (str "a/b/c")).getLast? = some (str "c") ∧
    str "b" ≠ str "c" := by
  decide

/-- C2, amended: the normalization extracts the second path segment (which
for the two-segment tokens the backend produces, `<prefix>/<folder>`, is
indeed the final segment), not the last segment of longer tokens; and it is
idempotent on every token. -/
theorem C2_extractJobFolder_amended :
    (∀ jd : Option Str, extractJobFolder (extractJobFolder jd) = extractJobFolder jd) ∧
    (∀ a b : Str, '/' ∉ a → '/' ∉ b → b ≠ [] →
      extractJobFolder (some (a ++ '/' :: b)) = some b) := by
  constructor
  · intro jd
    cases h : extractJobFolder jd with
    | none => simp [extractJobFolder]
    | some p =>
      obtain ⟨hne, hns⟩ := extractJobFolder_spec jd p h
      simp only [extractJobFolder, if_neg hne, splitOnSlash_of_not_mem p hns]
      simp [jsOrStr, truthy, hne]
  · intro a b ha hb hbne
    have hane : a ++ '/' :: b ≠ [] := by simp
    simp only [extractJobFolder, if_neg hane, splitOnSlash_two a b ha hb]
    simp [jsOrStr, truthy, hbne]

/-- C2, witness: the amended theorem evaluated on the idempotence of the
three-segment token and on the backend's two-segment shape. -/
theorem C2_witness :
    extractJobFolder (extractJobFolder (some (str "a/b/c"))) =
      extractJobFolder (some (str "a/b/c")) ∧
    extractJobFolder (some (str "output" ++ '/' :: str "job-20250101-000000")) =
      some (str "job-20250101-000000") :=
  ⟨C2_extractJobFolder_amended.1 _,
   C2_extractJobFolder_amended.2 (str "output") (str "job-20250101-000000")
     (by decide) (by decide) (by decide)⟩

/-! ## C3 — export URLs for a stored job -/

/-- C3: for a stored job whose working-directory token is
`"output/job-20250101-000000"`, exporting the formats `json` and `csv`
returns exactly the two pairs whose URLs are the deterministic
concatenations `base ++ "/download/" ++ folder ++ "/" ++ filename`, and
those URLs end in `/job-20250101-000000/all_results.json` and
`/job-20250101-000000/all_results.csv` respectively. -/
theorem C3_exportJob_urls : ∀ (apiUrl : Str) (st : Store) (jobId : Str) (job : CrawlJob),
    st.jobs.find? (fun j => j.id = jobId) = some job →
    job.jobDir = some (str "output/job-20250101-000000") →
    exportJob apiUrl st jobId [str "json", str "csv"] =
      .ok [(str "json", apiUrl ++ str "/download/" ++ str "job-20250101-000000" ++
              str "/" ++ str "all_results.json"),
           (str "csv", apiUrl ++ str "/download/" ++ str "job-20250101-000000" ++
              str "/" ++ str "all_results.csv")] ∧
    List.IsSuffix (str "/job-20250101-000000/all_results.json")
      (apiUrl ++ str "/download/" ++ str "job-20250101-000000" ++
        str "/" ++ str "all_results.json") ∧
    List.IsSuffix (str "/job-20250101-000000/all_results.csv")
      (apiUrl ++ str "/download/" ++ str "job-20250101-000000" ++
        str "/" ++ str "all_results.csv") := by
  intro apiUrl st jobId job hfind hdir
  refine ⟨?_, ⟨apiUrl ++ str "/download", ?_⟩, ⟨apiUrl ++ str "/download", ?_⟩⟩
  · unfold exportJob
    rw [hfind]
    simp only [hdir]
    rfl
  · simp only [List.append_assoc]
    rfl
  · simp only [List.append_assoc]
    rfl

/-- C3, witness: the export evaluated on a concrete store and base. -/
theorem C3_witness :
    exportJob (str "http://127.0.0.1:8000") ⟨[sampleCompletedJob], []⟩ (str "j1")
        [str "json", str "csv"] =
      .ok [(str "json", str "http://127.0.0.1:8000" ++ str "/download/" ++
              str "job-20250101-000000" ++ str "/" ++ str "all_results.json"),
           (str "csv", str "http://127.0.0.1:8000" ++ str "/download/" ++
              str "job-20250101-000000" ++ str "/" ++ str "all_results.csv")] :=
  (C3_exportJob_urls (str "http://127.0.0.1:8000") ⟨[sampleCompletedJob], []⟩
    (str "j1") sampleCompletedJob (by decide) (by decide)).1

/-! ## C4 — actions against a terminal job are no-ops -/

/-- C4: for a stored job in a terminal status (`completed`, `failed` or
`canceled`), `performJobAction` with any action is a no-op that does not
throw: the store — every job's status, counts and timestamps, and the log
list — is returned unchanged, in the mock branch and in the real branch
alike. -/
theorem C4_terminal_noop : ∀ (useMock : Bool) (now : Nat) (logId : Str) (st : Store)
    (jobId : Str) (job : CrawlJob) (action : JobAction),
    st.jobs.find? (fun j => j.id = jobId) = some job →
    job.status.isTerminal = true →
    performJobAction useMock now logId st jobId action = .ok st := by
  intro useMock now logId st jobId job action hfind hterm
  cases useMock with
  | false => rfl
  | true =>
    unfold performJobAction
    simp only [if_pos rfl]
    rw [hfind]
    cases hstat : job.status with
    | queued => rw [hstat] at hterm; simp [JobStatus.isTerminal] at hterm
    | running => rw [hstat] at hterm; simp [JobStatus.isTerminal] at hterm
    | paused => rw [hstat] at hterm; simp [JobStatus.isTerminal] at hterm
    | completed => simp [hstat]
    | failed => simp [hstat]
    | canceled => simp [hstat]

/-- C4, witness: pausing a completed job leaves the store untouched. -/
theorem C4_witness :
    performJobAction true 99 (str "lg") ⟨[sampleCompletedJob], []⟩ (str "j1")
      .pause = .ok ⟨[sampleCompletedJob], []⟩ :=
  C4_terminal_noop true 99 (str "lg") ⟨[sampleCompletedJob], []⟩ (str "j1")
    sampleCompletedJob .pause (by decide) (by decide)

/-! ## C5 — failed submission leaves the store unchanged -/

/-- C5: whenever the remote submission does not succeed — the fetch
rejects, the response is non-2xx, or the body carries no truthy `job_id` —
`createJob` throws and the Local Store is exactly what it was: no job and
no log entry is created. -/
theorem C5_createJob_no_partial_state : ∀ (now : Nat) (config : CrawlConfig) (st : Store),
    (∀ msg, (createJob now config (.netErr msg) st).2 = st ∧
      (createJob now config (.netErr msg) st).1 = .error msg) ∧
    (∀ status statusText body jid,
      (createJob now config (.resp false status statusText body jid) st).2 = st ∧
      ∃ msg, (createJob now config (.resp false status statusText body jid) st).1 =
        .error msg) ∧
    (∀ status statusText body jid, truthy jid = false →
      (createJob now config (.resp true status statusText body jid) st).2 = st ∧
      (createJob now config (.resp true status statusText body jid) st).1 =
        .error (str "No job_id from backend")) := by
  intro now config st
  refine ⟨fun msg => ⟨rfl, rfl⟩, fun status statusText body jid => ⟨?_, ?_⟩,
    fun status statusText body jid hjid => ⟨?_, ?_⟩⟩
  · simp [createJob]
  · exact ⟨_, rfl⟩
  · simp [createJob, hjid]
  · simp [createJob, hjid]

/-- C5, witness: a 2xx response without a `job_id` throws and leaves the
empty store empty. -/
theorem C5_witness :
    (createJob 0 sampleConfig (.resp true 200 (str "OK") (str "\x7b\x7d") none)
      ⟨[], []⟩).2 = ⟨[], []⟩ ∧
    (createJob 0 sampleConfig (.resp true 200 (str "OK") (str "\x7b\x7d") none)
      ⟨[], []⟩).1 = .error (str "No job_id from backend") :=
  (C5_createJob_no_partial_state 0 sampleConfig ⟨[], []⟩).2.2 200 (str "OK")
    (str "\x7b\x7d") none (by decide)

/-! ## C6 — validation of the start-URL list -/

/-- C6, counterexample: `createJob` itself performs no start-URL
validation: with an empty start-URL list and a successful backend reply it
does not fail — it returns the new job and adds it to the Local Store. -/
theorem C6_counterexample :
    (createJob 0 emptyUrlsConfig
      (.resp true 200 (str "OK") (str "\x7b\x7d") (some (str "abc")))
      ⟨[], []⟩).2.jobs.length = 1 ∧
    (createJob 0 emptyUrlsConfig
      (.resp true 200 (str "OK") (str "\x7b\x7d") (some (str "abc")))
      ⟨[], []⟩).1.toOption =
      some { id := str "abc", name := str "Test crawl", config := emptyUrlsConfig,
             status := .running, createdAt := 0, startedAt := some 0,
             counts := ⟨0, 0, 0⟩ } := by
  decide

/-- C6, amended: the validation is enforced by the UI submit handler, not
by `createJob`: a config whose start-URL list is empty or contains only
blank URLs is rejected by the handler's guard before any network call, and
the submit pipeline leaves the Local Store unchanged — no Job and no log
entry is created. -/
theorem C6_validation_guard : ∀ (config : CrawlConfig) (now : Nat)
    (r : CreateFetchResult) (st : Store),
    (config.startUrls = [] ∨ ∀ u ∈ config.startUrls, jsTrim u = []) →
    (∃ msg, handleSubmitGuard config = .validationError msg) ∧
    submitPipeline now config r st = st := by
  intro config now r st h
  have hguard : ∃ msg, handleSubmitGuard config = .validationError msg := by
    unfold handleSubmitGuard
    by_cases hn : jsTrim config.name = []
    · exact ⟨_, by rw [if_pos hn]⟩
    · rw [if_neg hn]
      have hcond : config.startUrls = [] ∨ jsTrim (config.startUrls.headD []) = [] := by
        rcases h with h | h
        · exact Or.inl h
        · cases hu : config.startUrls with
          | nil => exact Or.inl rfl
          | cons a as =>
            exact Or.inr (h a (hu ▸ List.mem_cons_self a as))
      rw [if_pos hcond]
      exact ⟨_, rfl⟩
  refine ⟨hguard, ?_⟩
  obtain ⟨msg, hmsg⟩ := hguard
  unfold submitPipeline
  rw [hmsg]

/-- C6, witness: a config whose only start URL is blank is rejected and
the empty store stays empty, even for a backend that would have accepted. -/
theorem C6_witness :
    (∃ msg, handleSubmitGuard blankUrlConfig = .validationError msg) ∧
    submitPipeline 0 blankUrlConfig
      (.resp true 200 (str "OK") (str "\x7b\x7d") (some (str "abc")))
      ⟨[], []⟩ = ⟨[], []⟩ :=
  C6_validation_guard blankUrlConfig 0
    (.resp true 200 (str "OK") (str "\x7b\x7d") (some (str "abc")))
    ⟨[], []⟩ (by decide)

/-! ## C7 — export failure modes -/

/-- `filterMap` collapses to `map` when the function is total on the list. -/
theorem filterMap_eq_map_of_mem {α β : Type} (f : α → Option β) (g : α → β) :
    ∀ (l : List α), (∀ x ∈ l, f x = some (g x)) → l.filterMap f = l.map g := by
  intro l
  induction l with
  | nil => intro _; rfl
  | cons a as ih =>
    intro h
    rw [List.filterMap_cons, h a (List.mem_cons_self a as), List.map_cons,
      ih (fun x hx => h x (List.mem_cons_of_mem a hx))]

/-- C7: for a stored job without a server-assigned working-directory token,
`exportJob` fails and returns no URLs; with a token, unknown format ids are
silently dropped — the result maps exactly over the known requested formats
— unless no known format remains, in which case it fails.  (Both failures
are the same thrown error in the code, the spec's `NotReadyError` /
`NoArtifactsError` labels included.) -/
theorem C7_export_errors : ∀ (apiUrl : Str) (st : Store) (jobId : Str)
    (job : CrawlJob) (formats : List Str),
    st.jobs.find? (fun j => j.id = jobId) = some job →
    (job.jobDir = none →
      exportJob apiUrl st jobId formats =
        .error (str "No download links available for requested formats.")) ∧
    (∀ folder, extractJobFolder job.jobDir = some folder →
      (formats.filter (fun f => (formatToFilename f).isSome) = [] →
        exportJob apiUrl st jobId formats =
          .error (str "No download links available for requested formats.")) ∧
      (formats.filter (fun f => (formatToFilename f).isSome) ≠ [] →
        exportJob apiUrl st jobId formats =
          .ok ((formats.filter (fun f => (formatToFilename f).isSome)).map
            (fun f => (f, apiUrl ++ str "/download/" ++ folder ++ str "/" ++
              (formatToFilename f).getD []))))) := by
  intro apiUrl st jobId job formats hfind
  constructor
  · intro hdir
    have hnil : ∀ f, (match formatToFilename f with
        | some fn => (buildDownloadUrl apiUrl job.jobDir fn).map (fun url => (f, url))
        | none => none) = (none : Option (Str × Str)) := by
      intro f
      cases hf : formatToFilename f <;>
        simp [buildDownloadUrl, hdir, extractJobFolder]
    simp only [exportJob, hfind]
    rw [List.filterMap_eq_nil_iff.mpr (fun a _ => hnil a), if_pos rfl]
  · intro folder hfol
    constructor
    · intro hempty
      simp only [exportJob, hfind, hempty]
      rw [List.filterMap_nil, if_pos rfl]
    · intro hne
      have hmap := filterMap_eq_map_of_mem
        (fun f => match formatToFilename f with
          | some fn => (buildDownloadUrl apiUrl job.jobDir fn).map (fun url => (f, url))
          | none => none)
        (fun f => (f, apiUrl ++ str "/download/" ++ folder ++ str "/" ++
          (formatToFilename f).getD []))
        (formats.filter (fun f => (formatToFilename f).isSome))
        (by
          intro f hf
          have hsome : (formatToFilename f).isSome := by
            have := List.of_mem_filter hf
            simpa using this
          obtain ⟨fn, hfn⟩ := Option.isSome_iff_exists.mp hsome
          simp [hfn, buildDownloadUrl, hfol])
      simp only [exportJob, hfind]
      rw [hmap, if_neg (by simpa using hne)]

/-- C7, witness: exporting a job that has no working-directory token yet
fails with the no-links error. -/
theorem C7_witness :
    exportJob (str "http://127.0.0.1:8000") ⟨[sampleRunningJob], []⟩ (str "j1")
      [str "json"] =
      .error (str "No download links available for requested formats.") :=
  (C7_export_errors (str "http://127.0.0.1:8000") ⟨[sampleRunningJob], []⟩
    (str "j1") sampleRunningJob [str "json"] (by decide)).1 (by decide)

/-! ## C8 — the transport adapter's retry policy -/

/-- C8: `postJSON` makes at most two attempts; a first success returns the
parsed body with no retry; after a first failure it sleeps the fixed 1500 ms
delay and retries exactly once; if the second attempt also fails it raises
the last observed error verbatim — in particular, a non-2xx second response
yields the `HTTP <status> <statusText> – <body>` message, preserving the
status text. -/
theorem C8_postJSON_retry : ∀ (α : Type) (parse : Str → Option α)
    (env : Nat → AttemptOutcome),
    (postJSON parse env).2.1 ≤ 2 ∧
    (∀ v, attemptOnce parse (env 1) = .ok v →
      postJSON parse env = (.ok v, 1, [])) ∧
    (∀ e v, attemptOnce parse (env 1) = .error e →
      attemptOnce parse (env 2) = .ok v →
      postJSON parse env = (.ok v, 2, [1500])) ∧
    (∀ e e2, attemptOnce parse (env 1) = .error e →
      attemptOnce parse (env 2) = .error e2 →
      postJSON parse env = (.error e2, 2, [1500, 1500])) ∧
    (∀ status statusText body, env 2 = .resp false status statusText body →
      ∀ e, attemptOnce parse (env 1) = .error e →
      postJSON parse env = (.error (str "HTTP " ++ natStr status ++ str " " ++
        statusText ++ str " – " ++ (if body ≠ [] then body else str "(empty)")),
        2, [1500, 1500])) := by
  intro α parse env
  refine ⟨?_, ?_, ?_, ?_, ?_⟩
  · unfold postJSON
    cases attemptOnce parse (env 1) with
    | ok v => simp
    | error e => cases attemptOnce parse (env 2) <;> simp
  · intro v hv
    unfold postJSON
    rw [hv]
  · intro e v he hv
    unfold postJSON
    rw [he, hv]
  · intro e e2 he he2
    unfold postJSON
    rw [he, he2]
  · intro status statusText body h2 e he
    unfold postJSON
    rw [he, h2]
    simp [attemptOnce]

/-- C8, witness: a backend that answers 503 twice costs exactly two
attempts, two 1500 ms sleeps, and raises the second HTTP error. -/
theorem C8_witness :
    postJSON (fun _ : Str => some (0 : Nat))
      (fun _ => .resp false 503 (str "Service Unavailable") []) =
      (.error (str "HTTP 503 Service Unavailable – (empty)"), 2, [1500, 1500]) :=
  (C8_postJSON_retry Nat (fun _ : Str => some (0 : Nat))
      (fun _ => .resp false 503 (str "Service Unavailable") [])).2.2.2.1
    (str "HTTP 503 Service Unavailable – (empty)")
    (str "HTTP 503 Service Unavailable – (empty)") rfl rfl

/-! ## C9 — log refresh replaces the job's cached slice -/

/-- Every entry produced by the mapping step carries the fetched job's id. -/
theorem mem_mapBackendLogs_jobId (jobId : Str) (fetched : List BackendLogEntry) :
    ∀ e ∈ mapBackendLogs jobId fetched, e.jobId = jobId := by
  intro e he
  simp only [mapBackendLogs, List.mem_map] at he
  obtain ⟨p, _, hp⟩ := he
  rw [← hp]

/-- C9: refreshing a job's logs replaces (does not append to) that job's
cached slice with the mapped fetch, leaves every other job's cached entries
untouched, keys each mapped entry by the synthetic
`jobId ++ "-" ++ index ++ "-" ++ serverTs` identifier, and a second fetch of
the same underlying data returns the same entries and leaves the cache
fixed. -/
theorem C9_getJobLogs_replace : ∀ (jobId : Str) (fetched : List BackendLogEntry)
    (logs : List JobLog),
    (∀ e : JobLog, e.jobId ≠ jobId →
      (e ∈ (getJobLogs jobId fetched logs).2 ↔ e ∈ logs)) ∧
    (∀ e : JobLog, e.jobId = jobId →
      (e ∈ (getJobLogs jobId fetched logs).2 ↔ e ∈ mapBackendLogs jobId fetched)) ∧
    (∀ i l, fetched.get? i = some l →
      (mapBackendLogs jobId fetched).get? i = some
        { id := jobId ++ str "-" ++ natStr i ++ str "-" ++ natStr l.ts
          jobId := jobId, level := l.level.getD (str "info")
          message := l.message, timestamp := l.ts * 1000 }) ∧
    getJobLogs jobId fetched (getJobLogs jobId fetched logs).2 =
      getJobLogs jobId fetched logs := by
  intro jobId fetched logs
  refine ⟨?_, ?_, ?_, ?_⟩
  · intro e he
    constructor
    · intro hmem
      rcases List.mem_append.mp hmem with hmem | hmem
      · exact List.mem_of_mem_filter hmem
      · exact absurd (mem_mapBackendLogs_jobId jobId fetched e hmem) he
    · intro hmem
      exact List.mem_append.mpr (Or.inl (List.mem_filter.mpr ⟨hmem, by simpa using he⟩))
  · intro e he
    constructor
    · intro hmem
      rcases List.mem_append.mp hmem with hmem | hmem
      · have := List.of_mem_filter hmem
        simp only [decide_eq_true_eq] at this
        exact absurd he this
      · exact hmem
    · intro hmem
      exact List.mem_append.mpr (Or.inr hmem)
  · intro i l hl
    have hl' : fetched[i]? = some l := by
      rw [← List.get?_eq_getElem?]; exact hl
    simp [mapBackendLogs, hl']
  · unfold getJobLogs
    simp only [Prod.mk.injEq, true_and]
    have h1 : (mapBackendLogs jobId fetched).filter
        (fun x => decide (x.jobId ≠ jobId)) = [] :=
      List.filter_eq_nil_iff.mpr
        (fun a ha => by simp [mem_mapBackendLogs_jobId jobId fetched a ha])
    have h2 : (logs.filter (fun x => decide (x.jobId ≠ jobId))).filter
          (fun x => decide (x.jobId ≠ jobId)) =
        logs.filter (fun x => decide (x.jobId ≠ jobId)) :=
      List.filter_eq_self.mpr (fun a ha => (List.mem_filter.mp ha).2)
    rw [List.filter_append, h1, h2, List.append_nil]

/-- C9, witness: on a concrete cache, the other job's entry survives the
refresh and the refreshed job's membership is exactly the mapped fetch. -/
theorem C9_witness :
    (otherJobLog ∈ (getJobLogs (str "j1") sampleFetchedLogs
        [otherJobLog, staleOwnLog]).2 ↔ otherJobLog ∈ [otherJobLog, staleOwnLog]) ∧
    (staleOwnLog ∈ (getJobLogs (str "j1") sampleFetchedLogs
        [otherJobLog, staleOwnLog]).2 ↔
      staleOwnLog ∈ mapBackendLogs (str "j1") sampleFetchedLogs) :=
  ⟨(C9_getJobLogs_replace (str "j1") sampleFetchedLogs
      [otherJobLog, staleOwnLog]).1 otherJobLog (by decide),
   (C9_getJobLogs_replace (str "j1") sampleFetchedLogs
      [otherJobLog, staleOwnLog]).2.1 staleOwnLog (by decide)⟩

/-! ## C10 — reconciliation / export round-trip on the folder name -/

/-- C10: for a slash-free, non-empty backend-reported directory name `d`,
the reconciliation merge stores the token `"output_crawler/" ++ d`, the
normalization extracts exactly `d` back out of it, and the produced
download URL is `base ++ "/download/" ++ d ++ "/" ++ filename`. -/
theorem C10_sync_export_roundtrip : ∀ (d : Str), d ≠ [] → '/' ∉ d →
    ∀ (info : BackendJobInfo) (now : Nat) (j : CrawlJob) (apiUrl fn : Str),
    info.jobDir = some d →
    (syncMerge info now j).jobDir = some (str "output_crawler/" ++ d) ∧
    extractJobFolder (some (str "output_crawler/" ++ d)) = some d ∧
    buildDownloadUrl apiUrl (some (str "output_crawler/" ++ d)) fn =
      some (apiUrl ++ str "/download/" ++ d ++ str "/" ++ fn) := by
  intro d hd hslash info now j apiUrl fn hjd
  have hrw : str "output_crawler/" ++ d = str "output_crawler" ++ '/' :: d := by
    rw [show str "output_crawler/" = str "output_crawler" ++ ['/'] by decide,
      List.append_assoc]
    rfl
  have hex : extractJobFolder (some (str "output_crawler/" ++ d)) = some d := by
    rw [hrw]
    have hane : str "output_crawler" ++ '/' :: d ≠ [] := by simp
    simp only [extractJobFolder, if_neg hane,
      splitOnSlash_two (str "output_crawler") d (by decide) hslash]
    simp [jsOrStr, truthy, hd]
  refine ⟨?_, hex, ?_⟩
  · rcases info with ⟨cnts, stat, jd, su⟩
    have hjd' : jd = some d := hjd
    subst hjd'
    rcases stat with _ | ⟨r, dn, e⟩ <;> rcases su with _ | u <;>
        rcases cnts with _ | c <;>
      simp only [syncMerge, BackendJobInfo.doneFlag, BackendJobInfo.errorFlag,
        if_pos hd] <;>
      first
        | rfl
        | (split_ifs <;> rfl)
  · unfold buildDownloadUrl
    rw [hex]

/-- C10, witness: the round-trip evaluated on the sample completion
snapshot and a concrete base endpoint and filename. -/
theorem C10_witness :
    (syncMerge sampleDoneInfo 3 sampleRunningJob).jobDir =
      some (str "output_crawler/" ++ str "job-20250101-000000") ∧
    extractJobFolder (some (str "output_crawler/" ++ str "job-20250101-000000")) =
      some (str "job-20250101-000000") ∧
    buildDownloadUrl (str "http://127.0.0.1:8000")
        (some (str "output_crawler/" ++ str "job-20250101-000000"))
        (str "all_results.json") =
      some (str "http://127.0.0.1:8000" ++ str "/download/" ++
        str "job-20250101-000000" ++ str "/" ++ str "all_results.json") :=
  C10_sync_export_roundtrip (str "job-20250101-000000") (by decide) (by decide)
    sampleDoneInfo 3 sampleRunningJob (str "http://127.0.0.1:8000")
    (str "all_results.json") (by decide)

end FrontendCrawler
